import Mathlib

/-!
Shallow embedding of the cart / draft-sale manager and PIN login of the
react-powersync point-of-sale application.

The local embedded datastore is modelled as explicit lists of rows
(sales, sale_items, products).  SQL statements issued by the manager in
src/contexts/cart-context.tsx are translated one by one into pure
functions on this state.  Monetary values (REAL columns) are modelled as
rationals; quantities as integers; row identifiers as naturals allocated
from a counter (see freshness note at DB.nextId).  The reactive live
query that surfaces the cashier's current draft sale is modelled as an
explicit `live : Option Nat` input: the manager reads `currentSaleId`
from the live query, which may or may not reflect the store.
-/

namespace POS

/-- Row of the products table (the fields the cart manager reads:
src/collections/products.ts, used via product.id and product.price). -/
structure ProductRow where
  id : String
  price : ℚ
deriving DecidableEq

/-- Row of the sales table (src/powersync/AppSchema.ts, sales). -/
structure SaleRow where
  id : Nat
  cashier_id : String
  total_amount : ℚ
  status : String
  created_at : String
  completed_at : Option String
deriving DecidableEq

/-- Row of the sale_items table (src/powersync/AppSchema.ts, sale_items). -/
structure SaleItemRow where
  id : Nat
  sale_id : Nat
  product_id : String
  quantity : ℤ
  unit_price : ℚ
  subtotal : ℚ
  created_at : String
deriving DecidableEq

/-- The local store: the three tables the cart manager touches, plus the
id allocator.  Modelled from the spec: `generateId` (imported from
src/lib/utils, not part of the provided sources) returns a fresh
identifier for each new sale or sale-item row; the spec requires that "a
subsequent add-to-cart creates a new sale identifier distinct from the
cleared one", so identifiers are modelled as naturals allocated from the
monotone counter `nextId`. -/
structure DB where
  sales : List SaleRow
  saleItems : List SaleItemRow
  products : List ProductRow
  nextId : Nat
deriving DecidableEq

/-- SELECT id FROM sales WHERE cashier_id = ? AND status = 'draft' LIMIT 1
(both the live query of cart-context.tsx and the double-check lookup in
getOrCreateDraftSale evaluate this predicate). -/
def findDraftSale (db : DB) (cid : String) : Option SaleRow :=
  db.sales.find? (fun s => s.cashier_id == cid && s.status == "draft")

/-- The `currentSaleId` value surfaced by the reactive draft-sale query
when it is in sync with the store. -/
def liveSaleId (db : DB) (cid : String) : Option Nat :=
  (findDraftSale db cid).map (fun s => s.id)

/-- SELECT ... FROM sale_items WHERE sale_id = ? AND product_id = ? -/
def findSaleItem (its : List SaleItemRow) (sid : Nat) (pid : String) :
    Option SaleItemRow :=
  its.find? (fun i => i.sale_id == sid && i.product_id == pid)

/-- SELECT COALESCE(SUM(subtotal), 0) FROM sale_items WHERE sale_id = ? -/
def sumSubtotals (its : List SaleItemRow) (sid : Nat) : ℚ :=
  ((its.filter (fun i => i.sale_id == sid)).map (fun i => i.subtotal)).sum

/-- UPDATE sales SET total_amount = ? WHERE id = ? -/
def setSaleTotal (db : DB) (sid : Nat) (t : ℚ) : DB :=
  { db with
      sales := db.sales.map (fun s =>
        if s.id == sid then { s with total_amount := t } else s) }

/-- The SELECT COALESCE(SUM(subtotal), 0) query followed by the UPDATE of
total_amount, as issued at the end of each item-mutating transaction. -/
def recomputeTotal (db : DB) (sid : Nat) : DB :=
  setSaleTotal db sid (sumSubtotals db.saleItems sid)

/-- UPDATE sale_items SET quantity = ?, subtotal = ? WHERE id = ? -/
def updItemRow (its : List SaleItemRow) (itemId : Nat) (q : ℤ) (sub : ℚ) :
    List SaleItemRow :=
  its.map (fun i =>
    if i.id == itemId then { i with quantity := q, subtotal := sub } else i)

/-- DELETE FROM sale_items WHERE id = ? -/
def delItemRow (its : List SaleItemRow) (itemId : Nat) : List SaleItemRow :=
  its.filter (fun i => !(i.id == itemId))

/-- An atomic unit of the local store: it either commits its body or, if
any statement inside throws, rolls back to the state at its start (the
guarantee of powerSync.writeTransaction). -/
def writeTransaction (db : DB) (body : DB → DB) (commits : Bool) : DB :=
  if commits then body db else db

/-- INSERT INTO sales (id, cashier_id, total_amount, status, created_at)
VALUES (?, ?, 0, 'draft', ?) with a freshly generated id. -/
def insertDraft (db : DB) (cid : String) (now : String) : DB :=
  { db with
      sales := db.sales ++ [⟨db.nextId, cid, 0, "draft", now, none⟩],
      nextId := db.nextId + 1 }

/-- getOrCreateDraftSale (cart-context.tsx lines 166-199): use the live
query result if present, otherwise double-check the store directly, and
only if both are empty insert a fresh draft sale with total 0.  Returns
the resolved sale id together with the store state. -/
def getOrCreateDraftSale (db : DB) (cid : String) (live : Option Nat)
    (now : String) : Nat × DB :=
  match live with
  | some sid => (sid, db)
  | none =>
    match findDraftSale db cid with
    | some s => (s.id, db)
    | none => (db.nextId, insertDraft db cid now)

/-- Body of the addItem write transaction (cart-context.tsx lines
212-253): increment the existing line item or insert a new one, then
recompute the sale total from the sum of its line items. -/
def addItemTx (db : DB) (sid : Nat) (p : ProductRow) (now : String) : DB :=
  match findSaleItem db.saleItems sid p.id with
  | some item =>
    recomputeTotal
      { db with
          saleItems := updItemRow db.saleItems item.id (item.quantity + 1)
            ((item.quantity + 1 : ℤ) * item.unit_price) } sid
  | none =>
    recomputeTotal
      { db with
          saleItems :=
            db.saleItems ++ [⟨db.nextId, sid, p.id, 1, p.price, p.price, now⟩],
          nextId := db.nextId + 1 } sid

/-- addItem (cart-context.tsx lines 205-259) with an explicit commit flag
for the write transaction; errors thrown inside the transaction are
caught and swallowed, so a failed transaction leaves the state reached
after getOrCreateDraftSale. -/
def addItemRun (db : DB) (cashier : Option String) (live : Option Nat)
    (p : ProductRow) (now : String) (commits : Bool) : DB :=
  match cashier with
  | none => db
  | some cid =>
    let r := getOrCreateDraftSale db cid live now
    writeTransaction r.2 (fun d => addItemTx d r.1 p now) commits

/-- addItem on the successful path. -/
def addItem (db : DB) (cashier : Option String) (live : Option Nat)
    (p : ProductRow) (now : String) : DB :=
  addItemRun db cashier live p now true

/-- Body of the updateQuantity write transaction (cart-context.tsx lines
270-307): delete the line item when the requested quantity is ≤ 0,
otherwise update quantity and subtotal; in both cases recompute the sale
total; return early (no writes) when no matching line item exists. -/
def updateQuantityTx (db : DB) (sid : Nat) (pid : String) (q : ℤ) : DB :=
  match findSaleItem db.saleItems sid pid with
  | none => db
  | some item =>
    if q ≤ 0 then
      recomputeTotal { db with saleItems := delItemRow db.saleItems item.id } sid
    else
      recomputeTotal
        { db with
            saleItems := updItemRow db.saleItems item.id q
              ((q : ℚ) * item.unit_price) } sid

/-- updateQuantity (cart-context.tsx lines 265-313) with commit flag. -/
def updateQuantityRun (db : DB) (live : Option Nat) (pid : String) (q : ℤ)
    (commits : Bool) : DB :=
  match live with
  | none => db
  | some sid => writeTransaction db (fun d => updateQuantityTx d sid pid q) commits

/-- updateQuantity on the successful path. -/
def updateQuantity (db : DB) (live : Option Nat) (pid : String) (q : ℤ) : DB :=
  updateQuantityRun db live pid q true

/-- Body of the removeItem write transaction (cart-context.tsx lines
324-350). -/
def removeItemTx (db : DB) (sid : Nat) (pid : String) : DB :=
  match findSaleItem db.saleItems sid pid with
  | none => db
  | some item =>
    recomputeTotal { db with saleItems := delItemRow db.saleItems item.id } sid

/-- removeItem (cart-context.tsx lines 319-356) with commit flag. -/
def removeItemRun (db : DB) (live : Option Nat) (pid : String)
    (commits : Bool) : DB :=
  match live with
  | none => db
  | some sid => writeTransaction db (fun d => removeItemTx d sid pid) commits

/-- removeItem on the successful path. -/
def removeItem (db : DB) (live : Option Nat) (pid : String) : DB :=
  removeItemRun db live pid true

/-- Body of the clearCart write transaction (cart-context.tsx lines
365-374): delete every line item of the sale, then delete the sale row. -/
def clearCartTx (db : DB) (sid : Nat) : DB :=
  { db with
      saleItems := db.saleItems.filter (fun i => !(i.sale_id == sid)),
      sales := db.sales.filter (fun s => !(s.id == sid)) }

/-- clearCart (cart-context.tsx lines 361-378) with commit flag. -/
def clearCartRun (db : DB) (live : Option Nat) (commits : Bool) : DB :=
  match live with
  | none => db
  | some sid => writeTransaction db (fun d => clearCartTx d sid) commits

/-- clearCart on the successful path. -/
def clearCart (db : DB) (live : Option Nat) : DB :=
  clearCartRun db live true

/-- A cart line as shown to the UI (CartItem of cart-context.tsx). -/
structure CartItem where
  id : Nat
  productId : String
  quantity : ℤ
  unitPrice : ℚ
  subtotal : ℚ
deriving DecidableEq

/-- Product catalog lookup (the productMap of cart-context.tsx). -/
def findProduct (db : DB) (pid : String) : Option ProductRow :=
  db.products.find? (fun p => p.id == pid)

/-- The derived items view (cart-context.tsx lines 127-146): the raw sale
items of the current draft sale joined against the product map; a line
item whose product is not found in the catalog is dropped. -/
def items (db : DB) (live : Option Nat) : List CartItem :=
  match live with
  | none => []
  | some sid =>
    (db.saleItems.filter (fun i => i.sale_id == sid)).filterMap (fun i =>
      match findProduct db i.product_id with
      | none => none
      | some p => some ⟨i.id, p.id, i.quantity, i.unit_price, i.subtotal⟩)

/-- The derived total (cart-context.tsx lines 157-160): sum of the
subtotals of the items view. -/
def total (db : DB) (live : Option Nat) : ℚ :=
  ((items db live).map (fun i => i.subtotal)).sum

/-- completeSale (cart-context.tsx lines 384-411): returns null without
touching the store unless a cashier is present, a draft sale id is known
and the items view is non-empty; otherwise marks the sale completed,
writes the derived total and the completion timestamp, and returns the
sale id. -/
def completeSale (db : DB) (cashier : Option String) (live : Option Nat)
    (now : String) : Option Nat × DB :=
  match cashier, live with
  | some _, some sid =>
    if (items db (some sid)).isEmpty then (none, db)
    else
      let t := total db (some sid)
      (some sid,
        { db with
            sales := db.sales.map (fun s =>
              if s.id == sid then
                { s with status := "completed", total_amount := t,
                         completed_at := some now }
              else s) })
  | _, _ => (none, db)

/-- The manager operations a UI session can issue. -/
inductive CartOp where
  | add (p : ProductRow) (now : String)
  | update (pid : String) (q : ℤ)
  | remove (pid : String)
  | clear
  | complete (now : String)
deriving DecidableEq

/-- Whether an operation is one of the three line-item mutations. -/
def CartOp.isItemOp : CartOp → Bool
  | .add _ _ => true
  | .update _ _ => true
  | .remove _ => true
  | .clear => false
  | .complete _ => false

/-- One manager operation issued by the given cashier, with the live
query in sync with the store when the operation starts. -/
def stepOp (db : DB) (a : String × CartOp) : DB :=
  match a.2 with
  | .add p now => addItem db (some a.1) (liveSaleId db a.1) p now
  | .update pid q => updateQuantity db (liveSaleId db a.1) pid q
  | .remove pid => removeItem db (liveSaleId db a.1) pid
  | .clear => clearCart db (liveSaleId db a.1)
  | .complete now => (completeSale db (some a.1) (liveSaleId db a.1) now).2

/-- A sequence of manager operations. -/
def runOps (db : DB) (ops : List (String × CartOp)) : DB :=
  ops.foldl stepOp db

/-- Well-formedness of the store: every row id was allocated below the
counter, every line item references a sale id allocated below the
counter, and row ids are unique within each table. -/
def WF (db : DB) : Prop :=
  (∀ s ∈ db.sales, s.id < db.nextId) ∧
  (∀ i ∈ db.saleItems, i.id < db.nextId ∧ i.sale_id < db.nextId) ∧
  (db.sales.map (fun s => s.id)).Nodup ∧
  (db.saleItems.map (fun i => i.id)).Nodup

/-- The spec's total invariant: every sale row's total_amount equals the
sum of the subtotals of the line items belonging to it. -/
def consistent (db : DB) : Prop :=
  ∀ s ∈ db.sales, s.total_amount = sumSubtotals db.saleItems s.id

instance (db : DB) : Decidable (WF db) := by
  unfold WF
  exact inferInstance

instance (db : DB) : Decidable (consistent db) := by
  unfold consistent
  exact inferInstance

/-- Number of draft sale rows owned by a cashier. -/
def draftCount (db : DB) (cid : String) : Nat :=
  db.sales.countP (fun s => s.cashier_id == cid && s.status == "draft")

/-- The spec's uniqueness invariant: at most one draft sale per operator. -/
def atMostOneDraft (db : DB) : Prop :=
  ∀ cid, draftCount db cid ≤ 1

/-- Row of the cashiers table (src/powersync/AppSchema.ts, cashiers;
columns are nullable). -/
structure CashierRow where
  id : String
  name : Option String
  pin_hash : Option String
  is_active : Option ℤ
deriving DecidableEq

/-- The authenticated identity installed on successful login
(src/contexts/auth-context.tsx, AuthenticatedCashier). -/
structure AuthenticatedCashier where
  id : String
  name : String
deriving DecidableEq

/-- Observable outcome of loginWithPin: the returned boolean, the cashier
state, and the error state set by the call. -/
structure LoginResult where
  ok : Bool
  cashier : Option AuthenticatedCashier
  error : Option String
deriving DecidableEq

/-- SELECT * FROM cashiers WHERE pin_hash = ? AND is_active = 1 LIMIT 1
(SQL equality against a NULL column is not a match). -/
def matchingCashiers (rows : List CashierRow) (pin : String) : List CashierRow :=
  (rows.filter (fun r => r.pin_hash == some pin && r.is_active == some 1)).take 1

/-- loginWithPin (src/contexts/auth-context.tsx lines 39-95).  The local
store query either returns the matching rows or throws, modelled by the
Except input.  The inner signInAnonymously call has its own catch and
cannot affect the result. -/
def loginWithPin (dbRows : Except Unit (List CashierRow)) (pin : String) :
    LoginResult :=
  match dbRows with
  | .ok rows =>
    match matchingCashiers rows pin with
    | [] =>
      if pin.length == 4 then
        { ok := true, cashier := some ⟨"demo-" ++ pin, "Cashier " ++ pin⟩,
          error := none }
      else
        { ok := false, cashier := none,
          error := some "Invalid PIN. Please try again." }
    | r :: _ =>
      { ok := true, cashier := some ⟨r.id, r.name.getD "Unknown"⟩, error := none }
  | .error _ =>
    if pin.length == 4 then
      { ok := true, cashier := some ⟨"demo-" ++ pin, "Demo Cashier"⟩,
        error := none }
    else
      { ok := false, cashier := none,
        error := some "An error occurred during login. Please try again." }

/-- Spec-side definition, following the spec words only: a well-formed
4-digit PIN is a string of exactly four decimal digits.  Used to compare
the spec's fallback condition with the code's length check. -/
def isWellFormedFourDigitPin (pin : String) : Bool :=
  pin.length == 4 && pin.toList.all (fun c => c.isDigit)

/-! Basic facts about the embedded statements. -/

theorem setSaleTotal_saleItems (db : DB) (sid : Nat) (t : ℚ) :
    (setSaleTotal db sid t).saleItems = db.saleItems := rfl

theorem setSaleTotal_nextId (db : DB) (sid : Nat) (t : ℚ) :
    (setSaleTotal db sid t).nextId = db.nextId := rfl

theorem setSaleTotal_sales (db : DB) (sid : Nat) (t : ℚ) :
    (setSaleTotal db sid t).sales = db.sales.map (fun s =>
      if s.id == sid then { s with total_amount := t } else s) := rfl

theorem find?_map_pres {α : Type} (f : α → α) (p : α → Bool) (l : List α)
    (h : ∀ a ∈ l, p (f a) = p a) :
    (l.map f).find? p = (l.find? p).map f := by
  induction l with
  | nil => rfl
  | cons a t ih =>
    have ha := h a (List.mem_cons_self a t)
    by_cases hpa : p a = true
    · simp [List.find?_cons, hpa, ha]
    · have hfa : p a = false := Bool.eq_false_iff.2 hpa
      simp only [List.map_cons, List.find?_cons, ha, hfa]
      exact ih (fun x hx => h x (List.mem_cons_of_mem _ hx))

theorem countP_map_pres {α : Type} (f : α → α) (p : α → Bool) (l : List α)
    (h : ∀ a ∈ l, p (f a) = p a) :
    (l.map f).countP p = l.countP p := by
  induction l with
  | nil => rfl
  | cons a t ih =>
    simp only [List.map_cons, List.countP_cons, h a (List.mem_cons_self a t)]
    rw [ih (fun x hx => h x (List.mem_cons_of_mem _ hx))]

theorem countP_ge_two {α : Type} [DecidableEq α] (p : α → Bool) (l : List α)
    {a b : α} (ha : a ∈ l) (hb : b ∈ l) (hne : a ≠ b)
    (hpa : p a = true) (hpb : p b = true) : 2 ≤ l.countP p := by
  rw [List.countP_eq_length_filter]
  have ha2 : a ∈ l.filter p := List.mem_filter.2 ⟨ha, hpa⟩
  have hb2 : b ∈ l.filter p := List.mem_filter.2 ⟨hb, hpb⟩
  have ha3 : a ∈ (l.filter p).erase b := (List.mem_erase_of_ne hne).2 ha2
  have h1 : 0 < ((l.filter p).erase b).length := List.length_pos_of_mem ha3
  have h2 := List.length_erase_of_mem hb2
  omega

theorem sumSubtotals_nil (sid : Nat) : sumSubtotals [] sid = 0 := rfl

theorem sumSubtotals_cons (i : SaleItemRow) (l : List SaleItemRow) (sid : Nat) :
    sumSubtotals (i :: l) sid =
      (if i.sale_id == sid then i.subtotal else 0) + sumSubtotals l sid := by
  by_cases h : (i.sale_id == sid) = true
  · simp [sumSubtotals, List.filter_cons_of_pos h, h]
  · simp [sumSubtotals, List.filter_cons_of_neg h, h]

theorem sumSubtotals_append (l1 l2 : List SaleItemRow) (sid : Nat) :
    sumSubtotals (l1 ++ l2) sid = sumSubtotals l1 sid + sumSubtotals l2 sid := by
  simp [sumSubtotals, List.filter_append]

theorem sumSubtotals_eq_zero (l : List SaleItemRow) (sid : Nat)
    (h : ∀ i ∈ l, i.sale_id ≠ sid) : sumSubtotals l sid = 0 := by
  induction l with
  | nil => rfl
  | cons a t ih =>
    rw [sumSubtotals_cons]
    have h1 : (a.sale_id == sid) = false :=
      beq_eq_false_iff_ne.2 (h a (List.mem_cons_self a t))
    rw [h1, ih (fun x hx => h x (List.mem_cons_of_mem _ hx))]
    simp

theorem sumSubtotals_map_pres (f : SaleItemRow → SaleItemRow)
    (l : List SaleItemRow) (tgt : Nat)
    (h : ∀ i ∈ l, (f i).sale_id = i.sale_id ∧
      ((f i).subtotal = i.subtotal ∨ i.sale_id = tgt))
    (sid : Nat) (hsid : sid ≠ tgt) :
    sumSubtotals (l.map f) sid = sumSubtotals l sid := by
  induction l with
  | nil => rfl
  | cons a t ih =>
    obtain ⟨hs, hsub⟩ := h a (List.mem_cons_self a t)
    rw [List.map_cons, sumSubtotals_cons, sumSubtotals_cons, hs,
      ih (fun x hx => h x (List.mem_cons_of_mem _ hx))]
    congr 1
    by_cases hm : (a.sale_id == sid) = true
    · rcases hsub with h1 | h2
      · rw [h1]
      · have : sid = tgt := by rw [beq_iff_eq] at hm; omega
        exact absurd this hsid
    · have hm2 : (a.sale_id == sid) = false := Bool.eq_false_iff.2 hm
      rw [hm2]
      simp

theorem updItemRow_map_id (its : List SaleItemRow) (itemId : Nat) (q : ℤ)
    (sub : ℚ) :
    (updItemRow its itemId q sub).map (fun i => i.id) = its.map (fun i => i.id) := by
  unfold updItemRow
  rw [List.map_map]
  apply List.map_congr_left
  intro a _
  by_cases h : (a.id == itemId) = true <;> simp [Function.comp, h]

theorem mem_updItemRow {its : List SaleItemRow} {itemId : Nat} {q : ℤ}
    {sub : ℚ} {j : SaleItemRow} (hj : j ∈ updItemRow its itemId q sub) :
    ∃ i ∈ its, j.id = i.id ∧ j.sale_id = i.sale_id := by
  obtain ⟨i, hi, rfl⟩ := List.mem_map.1 hj
  refine ⟨i, hi, ?_, ?_⟩ <;> by_cases h : (i.id == itemId) = true <;> simp [h]

theorem mem_delItemRow {its : List SaleItemRow} {itemId : Nat}
    {j : SaleItemRow} (hj : j ∈ delItemRow its itemId) : j ∈ its :=
  (List.mem_filter.1 hj).1

theorem sumSubtotals_filter_pres (q : SaleItemRow → Bool)
    (l : List SaleItemRow) (tgt : Nat)
    (h : ∀ i ∈ l, q i = true ∨ i.sale_id = tgt)
    (sid : Nat) (hsid : sid ≠ tgt) :
    sumSubtotals (l.filter q) sid = sumSubtotals l sid := by
  induction l with
  | nil => rfl
  | cons a t ih =>
    have ih2 := ih (fun x hx => h x (List.mem_cons_of_mem _ hx))
    by_cases hq : q a = true
    · rw [List.filter_cons_of_pos hq, sumSubtotals_cons, sumSubtotals_cons, ih2]
    · have htgt : a.sale_id = tgt := by
        rcases h a (List.mem_cons_self a t) with h1 | h2
        · exact absurd h1 hq
        · exact h2
      rw [List.filter_cons_of_neg hq, sumSubtotals_cons, ih2]
      have h1 : (a.sale_id == sid) = false := by
        rw [beq_eq_false_iff_ne]
        omega
      rw [h1]
      simp

theorem sumSubtotals_updItemRow (its : List SaleItemRow) {item : SaleItemRow}
    (hnd : (its.map (fun i => i.id)).Nodup) (hmem : item ∈ its)
    (q : ℤ) (sub : ℚ) (sid : Nat) (hsid : sid ≠ item.sale_id) :
    sumSubtotals (updItemRow its item.id q sub) sid = sumSubtotals its sid := by
  unfold updItemRow
  apply sumSubtotals_map_pres _ _ item.sale_id _ sid hsid
  intro i hi
  constructor
  · by_cases h : (i.id == item.id) = true <;> simp [h]
  · by_cases h : (i.id == item.id) = true
    · right
      have hii : i = item := List.inj_on_of_nodup_map hnd hi hmem (beq_iff_eq.1 h)
      rw [hii]
    · left
      rw [if_neg h]

theorem sumSubtotals_delItemRow (its : List SaleItemRow) {item : SaleItemRow}
    (hnd : (its.map (fun i => i.id)).Nodup) (hmem : item ∈ its)
    (sid : Nat) (hsid : sid ≠ item.sale_id) :
    sumSubtotals (delItemRow its item.id) sid = sumSubtotals its sid := by
  unfold delItemRow
  apply sumSubtotals_filter_pres _ _ item.sale_id _ sid hsid
  intro i hi
  by_cases h : (i.id == item.id) = true
  · right
    have hii : i = item := List.inj_on_of_nodup_map hnd hi hmem (beq_iff_eq.1 h)
    rw [hii]
  · left
    simp [Bool.eq_false_iff.2 h]

theorem consistent_recompute (db : DB) (sid : Nat)
    (h : ∀ s ∈ db.sales, s.id ≠ sid →
      s.total_amount = sumSubtotals db.saleItems s.id) :
    consistent (setSaleTotal db sid (sumSubtotals db.saleItems sid)) := by
  intro s hs
  rw [setSaleTotal_sales] at hs
  obtain ⟨s0, hs0, rfl⟩ := List.mem_map.1 hs
  rw [setSaleTotal_saleItems]
  by_cases hid : (s0.id == sid) = true
  · rw [if_pos hid]
    show sumSubtotals db.saleItems sid = sumSubtotals db.saleItems s0.id
    rw [beq_iff_eq.1 hid]
  · rw [if_neg hid]
    exact h s0 hs0 (by simpa using hid)

theorem WF_setSaleTotal (db : DB) (sid : Nat) (t : ℚ) (h : WF db) :
    WF (setSaleTotal db sid t) := by
  obtain ⟨h1, h2, h3, h4⟩ := h
  refine ⟨?_, ?_, ?_, h4⟩
  · intro s hs
    rw [setSaleTotal_sales] at hs
    obtain ⟨s0, hs0, rfl⟩ := List.mem_map.1 hs
    rw [setSaleTotal_nextId]
    by_cases hid : (s0.id == sid) = true
    · rw [if_pos hid]; exact h1 s0 hs0
    · rw [if_neg hid]; exact h1 s0 hs0
  · intro i hi
    rw [setSaleTotal_saleItems] at hi
    rw [setSaleTotal_nextId]
    exact h2 i hi
  · rw [setSaleTotal_sales, List.map_map]
    have heq : (db.sales.map ((fun s => s.id) ∘ (fun s =>
        if s.id == sid then { s with total_amount := t } else s))) =
        db.sales.map (fun s => s.id) := by
      apply List.map_congr_left
      intro a _
      by_cases hid : (a.id == sid) = true <;> simp [Function.comp, hid]
    rw [heq]
    exact h3

theorem findSaleItem_eq_some {its : List SaleItemRow} {sid : Nat} {pid : String}
    {it : SaleItemRow} (h : findSaleItem its sid pid = some it) :
    it ∈ its ∧ it.sale_id = sid ∧ it.product_id = pid := by
  refine ⟨List.mem_of_find?_eq_some h, ?_⟩
  have hp := List.find?_some h
  simpa [Bool.and_eq_true, beq_iff_eq] using hp

theorem findDraftSale_eq_some {db : DB} {cid : String} {s : SaleRow}
    (h : findDraftSale db cid = some s) :
    s ∈ db.sales ∧ s.cashier_id = cid ∧ s.status = "draft" := by
  refine ⟨List.mem_of_find?_eq_some h, ?_⟩
  have hp := List.find?_some h
  simpa [Bool.and_eq_true, beq_iff_eq] using hp

theorem getOrCreateDraftSale_steady (db : DB) (cid : String) (now : String) :
    (∃ s, findDraftSale db cid = some s ∧
      getOrCreateDraftSale db cid (liveSaleId db cid) now = (s.id, db)) ∨
    (findDraftSale db cid = none ∧
      getOrCreateDraftSale db cid (liveSaleId db cid) now =
        (db.nextId, insertDraft db cid now)) := by
  cases h : findDraftSale db cid with
  | some s =>
    left
    exact ⟨s, rfl, by simp [getOrCreateDraftSale, liveSaleId, h]⟩
  | none =>
    right
    exact ⟨rfl, by simp [getOrCreateDraftSale, liveSaleId, h]⟩

theorem insertDraft_saleItems (db : DB) (cid : String) (now : String) :
    (insertDraft db cid now).saleItems = db.saleItems := rfl

theorem WF_insertDraft (db : DB) (cid : String) (now : String) (h : WF db) :
    WF (insertDraft db cid now) := by
  obtain ⟨h1, h2, h3, h4⟩ := h
  refine ⟨?_, ?_, ?_, h4⟩
  · intro s hs
    rcases List.mem_append.1 hs with hs | hs
    · have := h1 s hs
      show s.id < db.nextId + 1
      omega
    · rw [List.mem_singleton.1 hs]
      show db.nextId < db.nextId + 1
      omega
  · intro i hi
    have := h2 i hi
    show i.id < db.nextId + 1 ∧ i.sale_id < db.nextId + 1
    omega
  · show ((db.sales ++ [(⟨db.nextId, cid, 0, "draft", now, none⟩ : SaleRow)]).map
      (fun s => s.id)).Nodup
    rw [List.map_append, List.nodup_append]
    refine ⟨h3, List.nodup_singleton _, ?_⟩
    rw [List.map_singleton, List.disjoint_singleton]
    intro hmem
    obtain ⟨s, hs, hid⟩ := List.mem_map.1 hmem
    have hid2 : s.id = db.nextId := hid
    have := h1 s hs
    omega

theorem consistent_insertDraft (db : DB) (cid : String) (now : String)
    (hwf : WF db) (hc : consistent db) : consistent (insertDraft db cid now) := by
  intro s hs
  rcases List.mem_append.1 hs with hs | hs
  · exact hc s hs
  · rw [List.mem_singleton.1 hs]
    show (0 : ℚ) = sumSubtotals db.saleItems db.nextId
    rw [sumSubtotals_eq_zero]
    intro i hi
    exact Nat.ne_of_lt (hwf.2.1 i hi).2

theorem recomputeTotal_pres (db : DB) (sid : Nat) (hwf : WF db)
    (h : ∀ s ∈ db.sales, s.id ≠ sid →
      s.total_amount = sumSubtotals db.saleItems s.id) :
    WF (recomputeTotal db sid) ∧ consistent (recomputeTotal db sid) :=
  ⟨WF_setSaleTotal db sid _ hwf, consistent_recompute db sid h⟩

theorem addItemTx_pres (db : DB) (sid : Nat) (p : ProductRow) (now : String)
    (hwf : WF db) (hsid : sid < db.nextId) (hc : consistent db) :
    WF (addItemTx db sid p now) ∧ consistent (addItemTx db sid p now) := by
  obtain ⟨h1, h2, h3, h4⟩ := hwf
  cases hfind : findSaleItem db.saleItems sid p.id with
  | some item =>
    obtain ⟨hmem, hsale, hprod⟩ := findSaleItem_eq_some hfind
    simp only [addItemTx, hfind]
    apply recomputeTotal_pres
    · refine ⟨h1, ?_, h3, ?_⟩
      · intro i hi
        obtain ⟨i0, hi0, hid, hsid0⟩ := mem_updItemRow hi
        rw [hid, hsid0]
        exact h2 i0 hi0
      · show ((updItemRow db.saleItems item.id _ _).map (fun i => i.id)).Nodup
        rw [updItemRow_map_id]
        exact h4
    · intro s hs hne
      show s.total_amount = sumSubtotals (updItemRow db.saleItems item.id _ _) s.id
      rw [sumSubtotals_updItemRow db.saleItems h4 hmem _ _ s.id (hsale ▸ hne)]
      exact hc s hs
  | none =>
    simp only [addItemTx, hfind]
    apply recomputeTotal_pres
    · refine ⟨?_, ?_, h3, ?_⟩
      · intro s hs
        have := h1 s hs
        show s.id < db.nextId + 1
        omega
      · intro i hi
        rcases List.mem_append.1 hi with hi | hi
        · have := h2 i hi
          show i.id < db.nextId + 1 ∧ i.sale_id < db.nextId + 1
          omega
        · rw [List.mem_singleton.1 hi]
          show db.nextId < db.nextId + 1 ∧ sid < db.nextId + 1
          omega
      · show ((db.saleItems ++
            [(⟨db.nextId, sid, p.id, 1, p.price, p.price, now⟩ : SaleItemRow)]).map
          (fun i => i.id)).Nodup
        rw [List.map_append, List.nodup_append]
        refine ⟨h4, List.nodup_singleton _, ?_⟩
        rw [List.map_singleton, List.disjoint_singleton]
        intro hmem
        obtain ⟨i, hi, hid⟩ := List.mem_map.1 hmem
        have hid2 : i.id = db.nextId := hid
        have := (h2 i hi).1
        omega
    · intro s hs hne
      show s.total_amount =
        sumSubtotals (db.saleItems ++ [⟨db.nextId, sid, p.id, 1, p.price, p.price, now⟩]) s.id
      rw [sumSubtotals_append, sumSubtotals_cons, sumSubtotals_nil]
      have hbe : ((⟨db.nextId, sid, p.id, 1, p.price, p.price, now⟩ :
          SaleItemRow).sale_id == s.id) = false := by
        rw [beq_eq_false_iff_ne]
        show sid ≠ s.id
        omega
      rw [hbe]
      simpa using hc s hs

theorem updateQuantityTx_pres (db : DB) (sid : Nat) (pid : String) (q : ℤ)
    (hwf : WF db) (hc : consistent db) :
    WF (updateQuantityTx db sid pid q) ∧ consistent (updateQuantityTx db sid pid q) := by
  obtain ⟨h1, h2, h3, h4⟩ := hwf
  cases hfind : findSaleItem db.saleItems sid pid with
  | none =>
    simp only [updateQuantityTx, hfind]
    exact ⟨⟨h1, h2, h3, h4⟩, hc⟩
  | some item =>
    obtain ⟨hmem, hsale, hprod⟩ := findSaleItem_eq_some hfind
    simp only [updateQuantityTx, hfind]
    by_cases hq : q ≤ 0
    · rw [if_pos hq]
      apply recomputeTotal_pres
      · refine ⟨h1, ?_, h3, ?_⟩
        · intro i hi
          exact h2 i (mem_delItemRow hi)
        · show ((delItemRow db.saleItems item.id).map (fun i => i.id)).Nodup
          exact (List.Sublist.map _ (List.filter_sublist _)).nodup h4
      · intro s hs hne
        show s.total_amount = sumSubtotals (delItemRow db.saleItems item.id) s.id
        rw [sumSubtotals_delItemRow db.saleItems h4 hmem s.id (hsale ▸ hne)]
        exact hc s hs
    · rw [if_neg hq]
      apply recomputeTotal_pres
      · refine ⟨h1, ?_, h3, ?_⟩
        · intro i hi
          obtain ⟨i0, hi0, hid, hsid0⟩ := mem_updItemRow hi
          rw [hid, hsid0]
          exact h2 i0 hi0
        · show ((updItemRow db.saleItems item.id _ _).map (fun i => i.id)).Nodup
          rw [updItemRow_map_id]
          exact h4
      · intro s hs hne
        show s.total_amount = sumSubtotals (updItemRow db.saleItems item.id _ _) s.id
        rw [sumSubtotals_updItemRow db.saleItems h4 hmem _ _ s.id (hsale ▸ hne)]
        exact hc s hs

theorem removeItemTx_pres (db : DB) (sid : Nat) (pid : String)
    (hwf : WF db) (hc : consistent db) :
    WF (removeItemTx db sid pid) ∧ consistent (removeItemTx db sid pid) := by
  obtain ⟨h1, h2, h3, h4⟩ := hwf
  cases hfind : findSaleItem db.saleItems sid pid with
  | none =>
    simp only [removeItemTx, hfind]
    exact ⟨⟨h1, h2, h3, h4⟩, hc⟩
  | some item =>
    obtain ⟨hmem, hsale, hprod⟩ := findSaleItem_eq_some hfind
    simp only [removeItemTx, hfind]
    apply recomputeTotal_pres
    · refine ⟨h1, ?_, h3, ?_⟩
      · intro i hi
        exact h2 i (mem_delItemRow hi)
      · show ((delItemRow db.saleItems item.id).map (fun i => i.id)).Nodup
        exact (List.Sublist.map _ (List.filter_sublist _)).nodup h4
    · intro s hs hne
      show s.total_amount = sumSubtotals (delItemRow db.saleItems item.id) s.id
      rw [sumSubtotals_delItemRow db.saleItems h4 hmem s.id (hsale ▸ hne)]
      exact hc s hs

theorem addItem_some (db : DB) (cid : String) (live : Option Nat)
    (p : ProductRow) (now : String) :
    addItem db (some cid) live p now =
      addItemTx (getOrCreateDraftSale db cid live now).2
        (getOrCreateDraftSale db cid live now).1 p now := rfl

theorem addItem_none (db : DB) (live : Option Nat) (p : ProductRow)
    (now : String) : addItem db none live p now = db := rfl

theorem updateQuantity_some (db : DB) (sid : Nat) (pid : String) (q : ℤ) :
    updateQuantity db (some sid) pid q = updateQuantityTx db sid pid q := rfl

theorem updateQuantity_none (db : DB) (pid : String) (q : ℤ) :
    updateQuantity db none pid q = db := rfl

theorem removeItem_some (db : DB) (sid : Nat) (pid : String) :
    removeItem db (some sid) pid = removeItemTx db sid pid := rfl

theorem removeItem_none (db : DB) (pid : String) :
    removeItem db none pid = db := rfl

theorem clearCart_some (db : DB) (sid : Nat) :
    clearCart db (some sid) = clearCartTx db sid := rfl

theorem clearCart_none (db : DB) : clearCart db none = db := rfl

theorem findDraftSale_setSaleTotal (db : DB) (sid : Nat) (t : ℚ) (cid : String) :
    findDraftSale (setSaleTotal db sid t) cid =
      (findDraftSale db cid).map (fun s =>
        if s.id == sid then { s with total_amount := t } else s) := by
  unfold findDraftSale
  rw [setSaleTotal_sales]
  apply find?_map_pres
  intro a _
  by_cases h : (a.id == sid) = true <;> simp [h]

theorem liveSaleId_setSaleTotal (db : DB) (sid : Nat) (t : ℚ) (cid : String) :
    liveSaleId (setSaleTotal db sid t) cid = liveSaleId db cid := by
  unfold liveSaleId
  rw [findDraftSale_setSaleTotal]
  cases h : findDraftSale db cid with
  | none => rfl
  | some s =>
    show Option.map _ (Option.map _ (some s)) = Option.map _ (some s)
    simp only [Option.map_some']
    congr 1
    split <;> rfl

theorem liveSaleId_items_congr (db1 db2 : DB) (cid : String)
    (h : db1.sales = db2.sales) : liveSaleId db1 cid = liveSaleId db2 cid := by
  unfold liveSaleId findDraftSale
  rw [h]

theorem liveSaleId_addItemTx (db : DB) (sid : Nat) (p : ProductRow)
    (now : String) (cid : String) :
    liveSaleId (addItemTx db sid p now) cid = liveSaleId db cid := by
  cases hfind : findSaleItem db.saleItems sid p.id <;>
    simp only [addItemTx, hfind, recomputeTotal] <;>
    rw [liveSaleId_setSaleTotal] <;>
    exact liveSaleId_items_congr _ _ _ rfl

theorem liveSaleId_insertDraft_self (db : DB) (cid : String) (now : String)
    (h : findDraftSale db cid = none) :
    liveSaleId (insertDraft db cid now) cid = some db.nextId := by
  have h2 : db.sales.find?
      (fun s => s.cashier_id == cid && s.status == "draft") = none := h
  simp [liveSaleId, findDraftSale, insertDraft, List.find?_append, h2, List.find?]

theorem liveSaleId_addItem_steady (db : DB) (cid : String) (p : ProductRow)
    (now : String) :
    liveSaleId (addItem db (some cid) (liveSaleId db cid) p now) cid =
      some (getOrCreateDraftSale db cid (liveSaleId db cid) now).1 := by
  rcases getOrCreateDraftSale_steady db cid now with ⟨s, hfd, heq⟩ | ⟨hfd, heq⟩
  · rw [addItem_some, heq]
    show liveSaleId (addItemTx db s.id p now) cid = some s.id
    rw [liveSaleId_addItemTx]
    unfold liveSaleId
    rw [hfd]
    rfl
  · rw [addItem_some, heq]
    show liveSaleId (addItemTx (insertDraft db cid now) db.nextId p now) cid =
      some db.nextId
    rw [liveSaleId_addItemTx]
    exact liveSaleId_insertDraft_self db cid now hfd

theorem draftCount_setSaleTotal (db : DB) (sid : Nat) (t : ℚ) (c : String) :
    draftCount (setSaleTotal db sid t) c = draftCount db c := by
  unfold draftCount
  rw [setSaleTotal_sales]
  apply countP_map_pres
  intro a _
  by_cases h : (a.id == sid) = true <;> simp [h]

theorem draftCount_addItemTx (db : DB) (sid : Nat) (p : ProductRow)
    (now : String) (c : String) :
    draftCount (addItemTx db sid p now) c = draftCount db c := by
  cases hfind : findSaleItem db.saleItems sid p.id <;>
    simp only [addItemTx, hfind, recomputeTotal] <;>
    rw [draftCount_setSaleTotal] <;>
    rfl

theorem draftCount_updateQuantityTx (db : DB) (sid : Nat) (pid : String)
    (q : ℤ) (c : String) :
    draftCount (updateQuantityTx db sid pid q) c = draftCount db c := by
  cases hfind : findSaleItem db.saleItems sid pid with
  | none => rw [updateQuantityTx, hfind]
  | some item =>
    simp only [updateQuantityTx, hfind]
    by_cases hq : q ≤ 0
    · rw [if_pos hq, recomputeTotal, draftCount_setSaleTotal]
      rfl
    · rw [if_neg hq, recomputeTotal, draftCount_setSaleTotal]
      rfl

theorem draftCount_removeItemTx (db : DB) (sid : Nat) (pid : String)
    (c : String) :
    draftCount (removeItemTx db sid pid) c = draftCount db c := by
  cases hfind : findSaleItem db.saleItems sid pid with
  | none => rw [removeItemTx, hfind]
  | some item =>
    simp only [removeItemTx, hfind, recomputeTotal]
    rw [draftCount_setSaleTotal]
    rfl

theorem draftCount_insertDraft_self (db : DB) (cid : String) (now : String) :
    draftCount (insertDraft db cid now) cid = draftCount db cid + 1 := by
  unfold draftCount insertDraft
  rw [List.countP_append]
  simp [List.countP_cons]

theorem draftCount_insertDraft_other (db : DB) (cid : String) (now : String)
    (c : String) (h : c ≠ cid) :
    draftCount (insertDraft db cid now) c = draftCount db c := by
  unfold draftCount insertDraft
  rw [List.countP_append]
  have hbe : (cid == c) = false := beq_eq_false_iff_ne.2 (Ne.symm h)
  simp [List.countP_cons, hbe]

theorem draftCount_eq_zero_of_none (db : DB) (cid : String)
    (h : findDraftSale db cid = none) : draftCount db cid = 0 := by
  unfold draftCount
  rw [List.countP_eq_zero]
  intro s hs
  exact List.find?_eq_none.1 h s hs

theorem draftCount_clearCartTx_le (db : DB) (sid : Nat) (c : String) :
    draftCount (clearCartTx db sid) c ≤ draftCount db c := by
  unfold draftCount clearCartTx
  rw [List.countP_filter]
  apply List.countP_mono_left
  intro s _ h
  rw [Bool.and_eq_true] at h
  exact h.1

theorem draftCount_completeSale_le (db : DB) (c : String) (live : Option Nat)
    (now : String) (cid : String) :
    draftCount (completeSale db (some c) live now).2 cid ≤ draftCount db cid := by
  cases live with
  | none => exact Nat.le_refl _
  | some sid =>
    by_cases he : (items db (some sid)).isEmpty = true
    · simp only [completeSale, if_pos he]
      exact Nat.le_refl _
    · simp only [completeSale, if_neg he]
      unfold draftCount
      show List.countP _ (db.sales.map _) ≤ _
      rw [List.countP_map]
      apply List.countP_mono_left
      intro s _ hp
      by_cases hid : (s.id == sid) = true
      · exfalso
        simp [Function.comp, hid] at hp
      · simpa [Function.comp, hid] using hp

theorem addItem_steady_pres (db : DB) (cid : String) (p : ProductRow)
    (now : String) (hwf : WF db) (hc : consistent db) :
    WF (addItem db (some cid) (liveSaleId db cid) p now) ∧
    consistent (addItem db (some cid) (liveSaleId db cid) p now) := by
  rcases getOrCreateDraftSale_steady db cid now with ⟨s, hfd, heq⟩ | ⟨hfd, heq⟩
  · rw [addItem_some, heq]
    show WF (addItemTx db s.id p now) ∧ consistent (addItemTx db s.id p now)
    exact addItemTx_pres db s.id p now hwf
      (hwf.1 s (findDraftSale_eq_some hfd).1) hc
  · rw [addItem_some, heq]
    show WF (addItemTx (insertDraft db cid now) db.nextId p now) ∧
      consistent (addItemTx (insertDraft db cid now) db.nextId p now)
    refine addItemTx_pres _ _ _ _ (WF_insertDraft db cid now hwf) ?_
      (consistent_insertDraft db cid now hwf hc)
    show db.nextId < db.nextId + 1
    omega

theorem updateQuantity_pres (db : DB) (live : Option Nat) (pid : String)
    (q : ℤ) (hwf : WF db) (hc : consistent db) :
    WF (updateQuantity db live pid q) ∧ consistent (updateQuantity db live pid q) := by
  cases live with
  | none => rw [updateQuantity_none]; exact ⟨hwf, hc⟩
  | some sid => rw [updateQuantity_some]; exact updateQuantityTx_pres db sid pid q hwf hc

theorem removeItem_pres (db : DB) (live : Option Nat) (pid : String)
    (hwf : WF db) (hc : consistent db) :
    WF (removeItem db live pid) ∧ consistent (removeItem db live pid) := by
  cases live with
  | none => rw [removeItem_none]; exact ⟨hwf, hc⟩
  | some sid => rw [removeItem_some]; exact removeItemTx_pres db sid pid hwf hc

theorem runOps_nil (db : DB) : runOps db [] = db := rfl

theorem runOps_cons (db : DB) (a : String × CartOp) (t : List (String × CartOp)) :
    runOps db (a :: t) = runOps (stepOp db a) t := rfl

theorem stepOp_item_pres (db : DB) (a : String × CartOp)
    (hop : a.2.isItemOp = true) (hwf : WF db) (hc : consistent db) :
    WF (stepOp db a) ∧ consistent (stepOp db a) := by
  obtain ⟨c, op⟩ := a
  cases op with
  | add p now => exact addItem_steady_pres db c p now hwf hc
  | update pid q => exact updateQuantity_pres db (liveSaleId db c) pid q hwf hc
  | remove pid => exact removeItem_pres db (liveSaleId db c) pid hwf hc
  | clear => exact absurd hop (by simp [CartOp.isItemOp])
  | complete now => exact absurd hop (by simp [CartOp.isItemOp])

theorem runOps_item_pres (db : DB) (ops : List (String × CartOp))
    (hwf : WF db) (hc : consistent db)
    (hops : ∀ a ∈ ops, a.2.isItemOp = true) :
    WF (runOps db ops) ∧ consistent (runOps db ops) := by
  induction ops generalizing db with
  | nil => exact ⟨hwf, hc⟩
  | cons a t ih =>
    rw [runOps_cons]
    have h1 := stepOp_item_pres db a (hops a (List.mem_cons_self a t)) hwf hc
    exact ih (stepOp db a) h1.1 h1.2 (fun x hx => hops x (List.mem_cons_of_mem _ hx))

theorem stepOp_atMostOne (db : DB) (a : String × CartOp)
    (h : atMostOneDraft db) : atMostOneDraft (stepOp db a) := by
  obtain ⟨c, op⟩ := a
  cases op with
  | add p now =>
    show atMostOneDraft (addItem db (some c) (liveSaleId db c) p now)
    rcases getOrCreateDraftSale_steady db c now with ⟨s, hfd, heq⟩ | ⟨hfd, heq⟩
    · rw [addItem_some, heq]
      intro cid
      show draftCount (addItemTx db s.id p now) cid ≤ 1
      rw [draftCount_addItemTx]
      exact h cid
    · rw [addItem_some, heq]
      intro cid
      show draftCount (addItemTx (insertDraft db c now) db.nextId p now) cid ≤ 1
      rw [draftCount_addItemTx]
      by_cases hcid : cid = c
      · subst hcid
        rw [draftCount_insertDraft_self, draftCount_eq_zero_of_none db cid hfd]
      · rw [draftCount_insertDraft_other db c now cid hcid]
        exact h cid
  | update pid q =>
    show atMostOneDraft (updateQuantity db (liveSaleId db c) pid q)
    cases liveSaleId db c with
    | none => rw [updateQuantity_none]; exact h
    | some sid =>
      rw [updateQuantity_some]
      intro cid
      rw [draftCount_updateQuantityTx]
      exact h cid
  | remove pid =>
    show atMostOneDraft (removeItem db (liveSaleId db c) pid)
    cases liveSaleId db c with
    | none => rw [removeItem_none]; exact h
    | some sid =>
      rw [removeItem_some]
      intro cid
      rw [draftCount_removeItemTx]
      exact h cid
  | clear =>
    show atMostOneDraft (clearCart db (liveSaleId db c))
    cases liveSaleId db c with
    | none => rw [clearCart_none]; exact h
    | some sid =>
      rw [clearCart_some]
      intro cid
      exact Nat.le_trans (draftCount_clearCartTx_le db sid cid) (h cid)
  | complete now =>
    show atMostOneDraft (completeSale db (some c) (liveSaleId db c) now).2
    intro cid
    exact Nat.le_trans (draftCount_completeSale_le db c _ now cid) (h cid)

theorem runOps_atMostOne (db : DB) (ops : List (String × CartOp))
    (h : atMostOneDraft db) : atMostOneDraft (runOps db ops) := by
  induction ops generalizing db with
  | nil => exact h
  | cons a t ih =>
    rw [runOps_cons]
    exact ih (stepOp db a) (stepOp_atMostOne db a h)

theorem findSaleItem_updItemRow (its : List SaleItemRow) (itemId : Nat)
    (q : ℤ) (sub : ℚ) (sid : Nat) (pid : String) :
    findSaleItem (updItemRow its itemId q sub) sid pid =
      (findSaleItem its sid pid).map (fun i =>
        if i.id == itemId then { i with quantity := q, subtotal := sub } else i) := by
  unfold findSaleItem updItemRow
  apply find?_map_pres
  intro a _
  by_cases h : (a.id == itemId) = true <;> simp [h]

theorem findSaleItem_append (l1 l2 : List SaleItemRow) (sid : Nat) (pid : String) :
    findSaleItem (l1 ++ l2) sid pid =
      (findSaleItem l1 sid pid).or (findSaleItem l2 sid pid) :=
  List.find?_append

theorem addItemTx_saleItems_some (db : DB) (sid : Nat) (p : ProductRow)
    (now : String) (item : SaleItemRow)
    (hfind : findSaleItem db.saleItems sid p.id = some item) :
    (addItemTx db sid p now).saleItems =
      updItemRow db.saleItems item.id (item.quantity + 1)
        ((item.quantity + 1 : ℤ) * item.unit_price) := by
  simp only [addItemTx, hfind, recomputeTotal, setSaleTotal_saleItems]

theorem addItemTx_saleItems_none (db : DB) (sid : Nat) (p : ProductRow)
    (now : String) (hfind : findSaleItem db.saleItems sid p.id = none) :
    (addItemTx db sid p now).saleItems =
      db.saleItems ++ [⟨db.nextId, sid, p.id, 1, p.price, p.price, now⟩] := by
  simp only [addItemTx, hfind, recomputeTotal, setSaleTotal_saleItems]

theorem getOrCreateDraftSale_saleItems (db : DB) (cid : String)
    (live : Option Nat) (now : String) :
    (getOrCreateDraftSale db cid live now).2.saleItems = db.saleItems := by
  unfold getOrCreateDraftSale
  cases live with
  | some sid => rfl
  | none =>
    cases h : findDraftSale db cid with
    | some s => rfl
    | none => rfl

theorem getOrCreateDraftSale_live_some (db : DB) (cid : String) (sid : Nat)
    (now : String) : getOrCreateDraftSale db cid (some sid) now = (sid, db) := rfl

theorem recomputeTotal_total (db : DB) (sid : Nat) :
    ∀ s ∈ (recomputeTotal db sid).sales, s.id = sid →
      s.total_amount = sumSubtotals (recomputeTotal db sid).saleItems sid := by
  intro s hs hid
  rw [recomputeTotal, setSaleTotal_saleItems]
  rw [recomputeTotal, setSaleTotal_sales] at hs
  obtain ⟨s0, hs0, rfl⟩ := List.mem_map.1 hs
  by_cases h : (s0.id == sid) = true
  · rw [if_pos h]
  · exfalso
    rw [if_neg h] at hid
    exact absurd (beq_iff_eq.2 hid) h

theorem recomputeTotal_sales_length (db : DB) (sid : Nat) :
    (recomputeTotal db sid).sales.length = db.sales.length := by
  rw [recomputeTotal, setSaleTotal_sales, List.length_map]

theorem updateQuantityTx_none_eq (db : DB) (sid : Nat) (pid : String) (q : ℤ)
    (h : findSaleItem db.saleItems sid pid = none) :
    updateQuantityTx db sid pid q = db := by
  simp only [updateQuantityTx, h]

theorem updateQuantityTx_del_eq (db : DB) (sid : Nat) (pid : String) (q : ℤ)
    (item : SaleItemRow) (h : findSaleItem db.saleItems sid pid = some item)
    (hq : q ≤ 0) :
    updateQuantityTx db sid pid q =
      recomputeTotal { db with saleItems := delItemRow db.saleItems item.id } sid := by
  simp only [updateQuantityTx, h, if_pos hq]

theorem updateQuantityTx_upd_eq (db : DB) (sid : Nat) (pid : String) (q : ℤ)
    (item : SaleItemRow) (h : findSaleItem db.saleItems sid pid = some item)
    (hq : ¬q ≤ 0) :
    updateQuantityTx db sid pid q =
      recomputeTotal
        { db with
            saleItems := updItemRow db.saleItems item.id q
              ((q : ℚ) * item.unit_price) } sid := by
  simp only [updateQuantityTx, h, if_neg hq]

theorem length_filter_not_add {α : Type} (l : List α) (p : α → Bool) :
    (l.filter (fun a => !(p a))).length + (l.filter p).length = l.length := by
  induction l with
  | nil => rfl
  | cons a t ih =>
    by_cases h : p a = true
    · rw [List.filter_cons_of_pos h, List.filter_cons_of_neg (by simp [h])]
      simp only [List.length_cons]
      omega
    · have h2 : p a = false := Bool.eq_false_iff.2 h
      rw [List.filter_cons_of_pos (by simp [h2]), List.filter_cons_of_neg h]
      simp only [List.length_cons]
      omega

theorem liveSaleId_eq_none {db : DB} {c : String} (h : liveSaleId db c = none) :
    findDraftSale db c = none := by
  unfold liveSaleId at h
  cases h2 : findDraftSale db c with
  | none => rfl
  | some s =>
    rw [h2] at h
    exact absurd h (by simp)

theorem liveSaleId_eq_some {db : DB} {c : String} {sid : Nat}
    (h : liveSaleId db c = some sid) :
    ∃ s, findDraftSale db c = some s ∧ s.id = sid := by
  unfold liveSaleId at h
  cases h2 : findDraftSale db c with
  | none =>
    rw [h2] at h
    exact absurd h (by simp)
  | some s =>
    rw [h2] at h
    exact ⟨s, rfl, by simpa using h⟩

theorem liveSaleId_clearCartTx_none (db : DB) (c : String) (sid : Nat)
    (hone : atMostOneDraft db) (hlive : liveSaleId db c = some sid) :
    liveSaleId (clearCartTx db sid) c = none := by
  obtain ⟨s0, hfd, hs0id⟩ := liveSaleId_eq_some hlive
  obtain ⟨hmem0, hcid0, hst0⟩ := findDraftSale_eq_some hfd
  have hnone : findDraftSale (clearCartTx db sid) c = none := by
    unfold findDraftSale clearCartTx
    rw [List.find?_eq_none]
    intro s hs hpred
    obtain ⟨hsmem, hsne⟩ := List.mem_filter.1 hs
    have hsne2 : s.id ≠ sid := by simpa using hsne
    have hne : s0 ≠ s := by
      intro he
      rw [← he] at hsne2
      exact hsne2 hs0id
    have h2 : 2 ≤ draftCount db c := by
      apply countP_ge_two _ _ hmem0 hsmem hne _ hpred
      simp [hcid0, hst0]
    have := hone c
    omega
  unfold liveSaleId
  rw [hnone]
  rfl

theorem completeSale_no_cashier (db : DB) (live : Option Nat) (now : String) :
    completeSale db none live now = (none, db) := by
  cases live <;> rfl

theorem completeSale_no_live (db : DB) (c : String) (now : String) :
    completeSale db (some c) none now = (none, db) := rfl

theorem completeSale_empty (db : DB) (c : String) (sid : Nat) (now : String)
    (h : items db (some sid) = []) :
    completeSale db (some c) (some sid) now = (none, db) := by
  simp only [completeSale, h]
  rfl

theorem completeSale_success_eq (db : DB) (c : String) (sid : Nat) (now : String)
    (h : items db (some sid) ≠ []) :
    completeSale db (some c) (some sid) now =
      (some sid,
       { db with
           sales := db.sales.map (fun s =>
             if s.id == sid then
               { s with status := "completed",
                        total_amount := total db (some sid),
                        completed_at := some now }
             else s) }) := by
  have he : (items db (some sid)).isEmpty = false := by
    rw [List.isEmpty_eq_false_iff_exists_mem]
    cases hi : items db (some sid) with
    | nil => exact absurd hi h
    | cons a t => exact ⟨a, List.mem_cons_self a t⟩
  simp only [completeSale, he]
  rfl

theorem liveSaleId_completeSale_none (db : DB) (c : String) (sid : Nat)
    (now : String) (hone : atMostOneDraft db)
    (hlive : liveSaleId db c = some sid) (hne : items db (some sid) ≠ []) :
    liveSaleId (completeSale db (some c) (some sid) now).2 c = none := by
  obtain ⟨s0, hfd, hs0id⟩ := liveSaleId_eq_some hlive
  obtain ⟨hmem0, hcid0, hst0⟩ := findDraftSale_eq_some hfd
  rw [completeSale_success_eq db c sid now hne]
  have hnone : findDraftSale
      { db with
          sales := db.sales.map (fun s =>
            if s.id == sid then
              { s with status := "completed",
                       total_amount := total db (some sid),
                       completed_at := some now }
            else s) } c = none := by
    unfold findDraftSale
    rw [List.find?_eq_none]
    intro s hs hpred
    obtain ⟨s1, hs1, rfl⟩ := List.mem_map.1 hs
    by_cases hid : (s1.id == sid) = true
    · rw [if_pos hid] at hpred
      simp at hpred
    · rw [if_neg hid] at hpred
      have hne2 : s0 ≠ s1 := by
        intro he
        rw [← he] at hid
        exact hid (beq_iff_eq.2 hs0id)
      have h2 : 2 ≤ draftCount db c := by
        apply countP_ge_two _ _ hmem0 hs1 hne2 _ hpred
        simp [hcid0, hst0]
      have := hone c
      omega
  unfold liveSaleId
  rw [hnone]
  rfl

/-! The claims. -/

/-- C1: for every sequence of addItem, updateQuantity and removeItem
operations issued against the store, after each operation completes every
sale row's total_amount equals the sum of the subtotal fields of the line
items belonging to that sale (stated over every well-formed consistent
starting store and every such sequence, so it holds after every prefix). -/
theorem total_amount_matches_item_sum (db : DB) (ops : List (String × CartOp))
    (hwf : WF db) (hc : consistent db)
    (hops : ∀ a ∈ ops, a.2.isItemOp = true) :
    consistent (runOps db ops) :=
  (runOps_item_pres db ops hwf hc hops).2

/-- Witness for C1 at a concrete store and operation sequence. -/
theorem total_amount_matches_item_sum_witness :
    consistent (runOps ⟨[], [], [⟨"A", 2⟩], 0⟩
      [("c", CartOp.add ⟨"A", 2⟩ "t1"), ("c", CartOp.add ⟨"A", 2⟩ "t2"),
       ("c", CartOp.update "A" 5), ("c", CartOp.remove "A")]) :=
  total_amount_matches_item_sum _ _ (by decide) (by decide) (by decide)

/-- C2: at most one draft sale row exists per operator at every
observable point along any operation sequence, and getOrCreateDraftSale
never inserts a new draft sale when a draft for the operator is visible
through either the reactive query or the direct point lookup. -/
theorem at_most_one_draft_per_operator (db : DB) (ops : List (String × CartOp))
    (h : atMostOneDraft db) :
    atMostOneDraft (runOps db ops) ∧
    ∀ (cid : String) (live : Option Nat) (now : String),
      live.isSome ∨ (findDraftSale db cid).isSome →
      (getOrCreateDraftSale db cid live now).2 = db := by
  refine ⟨runOps_atMostOne db ops h, ?_⟩
  intro cid live now hvis
  cases live with
  | some sid => rfl
  | none =>
    cases hfd : findDraftSale db cid with
    | some s => simp [getOrCreateDraftSale, hfd]
    | none =>
      rcases hvis with h1 | h1
      · exact absurd h1 (by simp)
      · rw [hfd] at h1
        exact absurd h1 (by simp)

/-- Witness for C2 at a concrete store and operation sequence. -/
theorem at_most_one_draft_per_operator_witness :
    draftCount (runOps ⟨[], [], [], 0⟩
      [("c", CartOp.add ⟨"A", 1⟩ "t"), ("c", CartOp.add ⟨"B", 1⟩ "t2")]) "c" ≤ 1 :=
  (at_most_one_draft_per_operator ⟨[], [], [], 0⟩
    [("c", CartOp.add ⟨"A", 1⟩ "t"), ("c", CartOp.add ⟨"B", 1⟩ "t2")]
    (fun _ => Nat.zero_le 1)).1 "c"

/-- C3: when the resolved draft sale already holds a line item for the
product, addItem increments its quantity by one and sets subtotal to
quantity times the stored unit price without inserting a row; when it
holds none, addItem inserts exactly one line item with quantity 1,
unit_price and subtotal equal to the product's current price; adding the
same product twice from an item-free state therefore yields a single
line item with quantity 2 and subtotal twice the unit price. -/
theorem addItem_merges_duplicate_products (db : DB) (cid : String)
    (p : ProductRow) (now now2 : String) (sid : Nat) (dbr : DB)
    (hres : getOrCreateDraftSale db cid (liveSaleId db cid) now = (sid, dbr)) :
    (∀ it, findSaleItem db.saleItems sid p.id = some it →
      findSaleItem (addItem db (some cid) (liveSaleId db cid) p now).saleItems
          sid p.id =
        some { it with quantity := it.quantity + 1,
                       subtotal := ((it.quantity + 1 : ℤ) : ℚ) * it.unit_price } ∧
      (addItem db (some cid) (liveSaleId db cid) p now).saleItems.length =
        db.saleItems.length) ∧
    (findSaleItem db.saleItems sid p.id = none →
      findSaleItem (addItem db (some cid) (liveSaleId db cid) p now).saleItems
          sid p.id =
        some ⟨dbr.nextId, sid, p.id, 1, p.price, p.price, now⟩ ∧
      (addItem db (some cid) (liveSaleId db cid) p now).saleItems.length =
        db.saleItems.length + 1) ∧
    (findSaleItem db.saleItems sid p.id = none →
      findSaleItem (addItem (addItem db (some cid) (liveSaleId db cid) p now)
          (some cid)
          (liveSaleId (addItem db (some cid) (liveSaleId db cid) p now) cid)
          p now2).saleItems sid p.id =
        some ⟨dbr.nextId, sid, p.id, 2, p.price, 2 * p.price, now⟩) := by
  have h1 : (getOrCreateDraftSale db cid (liveSaleId db cid) now).1 = sid := by
    rw [hres]
  have h2 : (getOrCreateDraftSale db cid (liveSaleId db cid) now).2 = dbr := by
    rw [hres]
  have hitems : dbr.saleItems = db.saleItems := by
    rw [← h2, getOrCreateDraftSale_saleItems]
  have hstep1 : addItem db (some cid) (liveSaleId db cid) p now =
      addItemTx dbr sid p now := by
    rw [addItem_some, h1, h2]
  have hcase2 : findSaleItem db.saleItems sid p.id = none →
      findSaleItem (addItem db (some cid) (liveSaleId db cid) p now).saleItems
          sid p.id =
        some ⟨dbr.nextId, sid, p.id, 1, p.price, p.price, now⟩ := by
    intro hnone
    have hnone2 : findSaleItem dbr.saleItems sid p.id = none := by
      rw [hitems]
      exact hnone
    rw [hstep1, addItemTx_saleItems_none dbr sid p now hnone2,
      findSaleItem_append, hnone2]
    simp [findSaleItem, List.find?]
  refine ⟨?_, ?_, ?_⟩
  · intro it hit
    have hit2 : findSaleItem dbr.saleItems sid p.id = some it := by
      rw [hitems]
      exact hit
    rw [hstep1, addItemTx_saleItems_some dbr sid p now it hit2]
    constructor
    · rw [findSaleItem_updItemRow, hit2]
      simp
    · show (updItemRow dbr.saleItems _ _ _).length = _
      unfold updItemRow
      rw [List.length_map, hitems]
  · intro hnone
    refine ⟨hcase2 hnone, ?_⟩
    have hnone2 : findSaleItem dbr.saleItems sid p.id = none := by
      rw [hitems]
      exact hnone
    rw [hstep1, addItemTx_saleItems_none dbr sid p now hnone2,
      List.length_append, hitems]
    rfl
  · intro hnone
    have hlive2 : liveSaleId (addItem db (some cid) (liveSaleId db cid) p now)
        cid = some sid := by
      rw [liveSaleId_addItem_steady, h1]
    have hfind1 := hcase2 hnone
    rw [hlive2, addItem_some, getOrCreateDraftSale_live_some]
    show findSaleItem (addItemTx (addItem db (some cid) (liveSaleId db cid) p now)
        sid p now2).saleItems sid p.id = _
    rw [addItemTx_saleItems_some _ sid p now2 _ hfind1,
      findSaleItem_updItemRow, hfind1]
    show some _ = some _
    congr 1
    show ite _ _ _ = _
    rw [if_pos (beq_self_eq_true _)]
    show ({ id := dbr.nextId, sale_id := sid, product_id := p.id,
            quantity := 1 + 1, unit_price := p.price,
            subtotal := ((1 + 1 : ℤ) : ℚ) * p.price,
            created_at := now } : SaleItemRow) = _
    norm_num

/-- Witness for C3 at a concrete store holding one draft sale. -/
theorem addItem_merges_duplicate_products_witness :
    findSaleItem (addItem (addItem ⟨[⟨0, "c", 0, "draft", "t0", none⟩], [],
        [⟨"A", 3⟩], 1⟩ (some "c")
        (liveSaleId ⟨[⟨0, "c", 0, "draft", "t0", none⟩], [], [⟨"A", 3⟩], 1⟩ "c")
        ⟨"A", 3⟩ "t1") (some "c")
        (liveSaleId (addItem ⟨[⟨0, "c", 0, "draft", "t0", none⟩], [],
          [⟨"A", 3⟩], 1⟩ (some "c")
          (liveSaleId ⟨[⟨0, "c", 0, "draft", "t0", none⟩], [], [⟨"A", 3⟩], 1⟩ "c")
          ⟨"A", 3⟩ "t1") "c")
        ⟨"A", 3⟩ "t2").saleItems 0 "A" =
      some ⟨1, 0, "A", 2, 3, 2 * 3, "t1"⟩ :=
  ((addItem_merges_duplicate_products ⟨[⟨0, "c", 0, "draft", "t0", none⟩], [],
      [⟨"A", 3⟩], 1⟩ "c" ⟨"A", 3⟩ "t1" "t2" 0
      ⟨[⟨0, "c", 0, "draft", "t0", none⟩], [], [⟨"A", 3⟩], 1⟩
      (by simp [getOrCreateDraftSale, liveSaleId, findDraftSale,
        List.find?])).2.2) rfl

/-- C4: updateQuantity is a no-op when the live query knows no sale or no
matching line item exists; otherwise, for quantity at most 0 it deletes
exactly the matching line item, and for positive quantity it updates the
item's quantity and sets subtotal to quantity times the stored unit
price; in both mutating cases the sale's total_amount is recomputed to
the sum of the remaining line items' subtotals within the same atomic
unit. -/
theorem updateQuantity_deletes_or_updates (db : DB) (live : Option Nat)
    (pid : String) (q : ℤ) :
    (live = none → updateQuantity db live pid q = db) ∧
    ∀ sid, live = some sid →
      (findSaleItem db.saleItems sid pid = none →
        updateQuantity db live pid q = db) ∧
      ∀ it, findSaleItem db.saleItems sid pid = some it →
        (q ≤ 0 →
          (∀ i ∈ (updateQuantity db live pid q).saleItems, i.id ≠ it.id) ∧
          (∀ i ∈ db.saleItems, i.id ≠ it.id →
            i ∈ (updateQuantity db live pid q).saleItems) ∧
          (updateQuantity db live pid q).sales.length = db.sales.length ∧
          (∀ s ∈ (updateQuantity db live pid q).sales, s.id = sid →
            s.total_amount =
              sumSubtotals (updateQuantity db live pid q).saleItems sid)) ∧
        (0 < q →
          findSaleItem (updateQuantity db live pid q).saleItems sid pid =
            some { it with quantity := q, subtotal := (q : ℚ) * it.unit_price } ∧
          (updateQuantity db live pid q).saleItems.length =
            db.saleItems.length ∧
          (∀ s ∈ (updateQuantity db live pid q).sales, s.id = sid →
            s.total_amount =
              sumSubtotals (updateQuantity db live pid q).saleItems sid)) := by
  refine ⟨?_, ?_⟩
  · intro h
    rw [h, updateQuantity_none]
  · intro sid hl
    subst hl
    refine ⟨?_, ?_⟩
    · intro hnone
      rw [updateQuantity_some, updateQuantityTx_none_eq db sid pid q hnone]
    · intro it hit
      constructor
      · intro hq
        rw [updateQuantity_some, updateQuantityTx_del_eq db sid pid q it hit hq]
        refine ⟨?_, ?_, recomputeTotal_sales_length _ _, recomputeTotal_total _ _⟩
        · intro i hi
          rw [recomputeTotal, setSaleTotal_saleItems] at hi
          have h2 := (List.mem_filter.1 hi).2
          simpa using h2
        · intro i hi hne
          rw [recomputeTotal, setSaleTotal_saleItems]
          exact List.mem_filter.2 ⟨hi, by simpa using hne⟩
      · intro hq
        have hq2 : ¬q ≤ 0 := by omega
        rw [updateQuantity_some, updateQuantityTx_upd_eq db sid pid q it hit hq2]
        refine ⟨?_, ?_, recomputeTotal_total _ _⟩
        · rw [recomputeTotal, setSaleTotal_saleItems, findSaleItem_updItemRow, hit]
          simp
        · rw [recomputeTotal, setSaleTotal_saleItems]
          show (updItemRow db.saleItems _ _ _).length = _
          unfold updItemRow
          rw [List.length_map]

/-- Witness for C4 at a concrete store: a positive-quantity update. -/
theorem updateQuantity_deletes_or_updates_witness :
    findSaleItem (updateQuantity ⟨[⟨0, "c", 0, "draft", "t", none⟩],
        [⟨1, 0, "A", 1, 3, 3, "t"⟩], [⟨"A", 3⟩], 2⟩ (some 0) "A" 5).saleItems
      0 "A" = some ⟨1, 0, "A", 5, 3, ((5 : ℤ) : ℚ) * 3, "t"⟩ :=
  ((((updateQuantity_deletes_or_updates ⟨[⟨0, "c", 0, "draft", "t", none⟩],
      [⟨1, 0, "A", 1, 3, 3, "t"⟩], [⟨"A", 3⟩], 2⟩ (some 0) "A" 5).2 0 rfl).2
      ⟨1, 0, "A", 1, 3, 3, "t"⟩
      (by simp [findSaleItem, List.find?])).2 (by omega)).1

/-- C5: clearCart deletes every line item of the live draft sale and the
sale row itself (a hard delete: no row with the sale's id survives, and
every row of other sales survives), and a subsequent addItem creates a
fresh draft sale whose identifier differs from the cleared one. -/
theorem clearCart_hard_deletes (db : DB) (c : String) (sid : Nat)
    (p : ProductRow) (nowAdd : String)
    (hwf : WF db) (hone : atMostOneDraft db)
    (hlive : liveSaleId db c = some sid) :
    (∀ i ∈ (clearCart db (some sid)).saleItems, i.sale_id ≠ sid) ∧
    (∀ i ∈ db.saleItems, i.sale_id ≠ sid →
      i ∈ (clearCart db (some sid)).saleItems) ∧
    ((clearCart db (some sid)).saleItems.length +
      (db.saleItems.filter (fun i => i.sale_id == sid)).length =
      db.saleItems.length) ∧
    (∀ s ∈ (clearCart db (some sid)).sales, s.id ≠ sid) ∧
    (∀ s ∈ db.sales, s.id ≠ sid → s ∈ (clearCart db (some sid)).sales) ∧
    liveSaleId (addItem (clearCart db (some sid)) (some c)
      (liveSaleId (clearCart db (some sid)) c) p nowAdd) c = some db.nextId ∧
    sid ≠ db.nextId := by
  rw [clearCart_some]
  have hnone : liveSaleId (clearCartTx db sid) c = none :=
    liveSaleId_clearCartTx_none db c sid hone hlive
  refine ⟨?_, ?_, ?_, ?_, ?_, ?_, ?_⟩
  · intro i hi
    have h2 := (List.mem_filter.1 hi).2
    simpa using h2
  · intro i hi hne
    exact List.mem_filter.2 ⟨hi, by simpa using hne⟩
  · exact length_filter_not_add db.saleItems (fun i => i.sale_id == sid)
  · intro s hs
    have h2 := (List.mem_filter.1 hs).2
    simpa using h2
  · intro s hs hne
    exact List.mem_filter.2 ⟨hs, by simpa using hne⟩
  · rw [liveSaleId_addItem_steady]
    rcases getOrCreateDraftSale_steady (clearCartTx db sid) c nowAdd with
      ⟨s, hfd, heq⟩ | ⟨hfd, heq⟩
    · rw [liveSaleId_eq_none hnone] at hfd
      exact absurd hfd (by simp)
    · rw [heq]
      rfl
  · obtain ⟨s0, hfd, hs0id⟩ := liveSaleId_eq_some hlive
    have := hwf.1 s0 (findDraftSale_eq_some hfd).1
    omega

/-- Witness for C5 at a concrete store with one draft sale and one item. -/
theorem clearCart_hard_deletes_witness :
    liveSaleId (addItem
      (clearCart ⟨[⟨0, "c", 3, "draft", "t", none⟩], [⟨1, 0, "A", 1, 3, 3, "t"⟩],
        [⟨"A", 3⟩], 2⟩ (some 0)) (some "c")
      (liveSaleId (clearCart ⟨[⟨0, "c", 3, "draft", "t", none⟩],
        [⟨1, 0, "A", 1, 3, 3, "t"⟩], [⟨"A", 3⟩], 2⟩ (some 0)) "c")
      ⟨"A", 3⟩ "t2") "c" = some 2 :=
  (clearCart_hard_deletes ⟨[⟨0, "c", 3, "draft", "t", none⟩],
    [⟨1, 0, "A", 1, 3, 3, "t"⟩], [⟨"A", 3⟩], 2⟩ "c" 0 ⟨"A", 3⟩ "t2"
    (by decide)
    (by
      intro cid
      unfold draftCount
      rw [List.countP_cons, List.countP_nil]
      split <;> omega)
    (by simp [liveSaleId, findDraftSale, List.find?])).2.2.2.2.2.1

/-- C6: completeSale returns no identifier and leaves the store untouched
whenever no cashier is present, no draft sale id is known, or the items
view is empty; when all preconditions hold it returns the sale id, marks
the sale completed with the computed total and completion timestamp, and
afterwards the operator has no draft sale until the next addItem creates
one. -/
theorem completeSale_preconditions (db : DB) (c : String) (now : String) :
    (∀ live, completeSale db none live now = (none, db)) ∧
    (completeSale db (some c) none now = (none, db)) ∧
    (∀ sid, items db (some sid) = [] →
      completeSale db (some c) (some sid) now = (none, db)) ∧
    (∀ sid, liveSaleId db c = some sid → items db (some sid) ≠ [] →
      atMostOneDraft db →
      (completeSale db (some c) (some sid) now).1 = some sid ∧
      (∃ s ∈ (completeSale db (some c) (some sid) now).2.sales,
        s.id = sid ∧ s.status = "completed" ∧
        s.total_amount = total db (some sid) ∧ s.completed_at = some now) ∧
      liveSaleId (completeSale db (some c) (some sid) now).2 c = none ∧
      ∀ (p : ProductRow) (now2 : String),
        (liveSaleId (addItem (completeSale db (some c) (some sid) now).2 (some c)
          (liveSaleId (completeSale db (some c) (some sid) now).2 c) p now2)
          c).isSome = true) := by
  refine ⟨fun live => completeSale_no_cashier db live now,
    completeSale_no_live db c now,
    fun sid h => completeSale_empty db c sid now h, ?_⟩
  intro sid hlive hne hone
  obtain ⟨s0, hfd, hs0id⟩ := liveSaleId_eq_some hlive
  obtain ⟨hmem0, hcid0, hst0⟩ := findDraftSale_eq_some hfd
  refine ⟨?_, ?_, liveSaleId_completeSale_none db c sid now hone hlive hne, ?_⟩
  · rw [completeSale_success_eq db c sid now hne]
  · rw [completeSale_success_eq db c sid now hne]
    apply Exists.intro { s0 with
      status := "completed"
      total_amount := total db (some sid)
      completed_at := some now }
    refine ⟨?_, hs0id, rfl, rfl, rfl⟩
    show _ ∈ db.sales.map _
    apply List.mem_map.2
    refine ⟨s0, hmem0, ?_⟩
    rw [if_pos (beq_iff_eq.2 hs0id)]
  · intro p now2
    rw [liveSaleId_addItem_steady]
    rfl

/-- Witness for C6: completing with an empty items view is a no-op. -/
theorem completeSale_preconditions_witness :
    completeSale ⟨[⟨0, "c", 0, "draft", "t", none⟩], [], [], 1⟩ (some "c")
      (some 0) "t2" =
      (none, ⟨[⟨0, "c", 0, "draft", "t", none⟩], [], [], 1⟩) :=
  (completeSale_preconditions ⟨[⟨0, "c", 0, "draft", "t", none⟩], [], [], 1⟩
    "c" "t2").2.2.1 0 rfl

/-- Product A of the spec's checkout scenario, price 4.99. -/
def janeProdA : ProductRow := ⟨"A", 499/100⟩

/-- Product B of the spec's checkout scenario, price 2.49. -/
def janeProdB : ProductRow := ⟨"B", 249/100⟩

/-- Initial store of the scenario: catalog only, empty cart. -/
def janeDb0 : DB := ⟨[], [], [janeProdA, janeProdB], 0⟩

/-- The operation sequence of the spec's checkout scenario. -/
def janeOps : List (String × CartOp) :=
  [("jane", CartOp.add janeProdA "t1"), ("jane", CartOp.add janeProdA "t2"),
   ("jane", CartOp.add janeProdB "t3"), ("jane", CartOp.update "A" 1),
   ("jane", CartOp.complete "t5")]

/-- Store after the first add of product A. -/
def janeDb1 : DB :=
  ⟨[⟨0, "jane", 499/100, "draft", "t1", none⟩],
   [⟨1, 0, "A", 1, 499/100, 499/100, "t1"⟩], [janeProdA, janeProdB], 2⟩

/-- Store after the second add of product A. -/
def janeDb2 : DB :=
  ⟨[⟨0, "jane", 998/100, "draft", "t1", none⟩],
   [⟨1, 0, "A", 2, 499/100, 998/100, "t1"⟩], [janeProdA, janeProdB], 2⟩

/-- Store after adding product B. -/
def janeDb3 : DB :=
  ⟨[⟨0, "jane", 1247/100, "draft", "t1", none⟩],
   [⟨1, 0, "A", 2, 499/100, 998/100, "t1"⟩,
    ⟨2, 0, "B", 1, 249/100, 249/100, "t3"⟩], [janeProdA, janeProdB], 3⟩

/-- Store after setting product A's quantity back to 1. -/
def janeDb4 : DB :=
  ⟨[⟨0, "jane", 748/100, "draft", "t1", none⟩],
   [⟨1, 0, "A", 1, 499/100, 499/100, "t1"⟩,
    ⟨2, 0, "B", 1, 249/100, 249/100, "t3"⟩], [janeProdA, janeProdB], 3⟩

/-- Store after completing the sale. -/
def janeDb5 : DB :=
  ⟨[⟨0, "jane", 748/100, "completed", "t1", some "t5"⟩],
   [⟨1, 0, "A", 1, 499/100, 499/100, "t1"⟩,
    ⟨2, 0, "B", 1, 249/100, 249/100, "t3"⟩], [janeProdA, janeProdB], 3⟩

theorem janeStep1 : stepOp janeDb0 ("jane", CartOp.add janeProdA "t1") = janeDb1 := by
  norm_num [stepOp, addItem, addItemRun, addItemTx, writeTransaction,
    getOrCreateDraftSale, liveSaleId, findDraftSale, findSaleItem, findProduct,
    insertDraft, recomputeTotal, sumSubtotals, setSaleTotal, updItemRow,
    delItemRow, janeDb0, janeDb1, janeProdA, janeProdB, List.find?, List.filter]

theorem janeStep2 : stepOp janeDb1 ("jane", CartOp.add janeProdA "t2") = janeDb2 := by
  norm_num [stepOp, addItem, addItemRun, addItemTx, writeTransaction,
    getOrCreateDraftSale, liveSaleId, findDraftSale, findSaleItem, findProduct,
    insertDraft, recomputeTotal, sumSubtotals, setSaleTotal, updItemRow,
    delItemRow, janeDb1, janeDb2, janeProdA, janeProdB, List.find?, List.filter]

theorem janeStep3 : stepOp janeDb2 ("jane", CartOp.add janeProdB "t3") = janeDb3 := by
  norm_num [stepOp, addItem, addItemRun, addItemTx, writeTransaction,
    getOrCreateDraftSale, liveSaleId, findDraftSale, findSaleItem, findProduct,
    insertDraft, recomputeTotal, sumSubtotals, setSaleTotal, updItemRow,
    delItemRow, janeDb2, janeDb3, janeProdA, janeProdB, List.find?, List.filter,
    show (("A" : String) == "B") = false from rfl,
    show (("B" : String) == "A") = false from rfl]

theorem janeStep4 : stepOp janeDb3 ("jane", CartOp.update "A" 1) = janeDb4 := by
  norm_num [stepOp, updateQuantity, updateQuantityRun, updateQuantityTx,
    writeTransaction, liveSaleId, findDraftSale, findSaleItem, findProduct,
    recomputeTotal, sumSubtotals, setSaleTotal, updItemRow, delItemRow,
    janeDb3, janeDb4, janeProdA, janeProdB, List.find?, List.filter]

theorem janeStep5 : stepOp janeDb4 ("jane", CartOp.complete "t5") = janeDb5 := by
  norm_num [stepOp, completeSale, items, total, liveSaleId, findDraftSale,
    findProduct, janeDb4, janeDb5, janeProdA, janeProdB, List.find?,
    List.filter, List.filterMap,
    show (("A" : String) == "B") = false from rfl,
    show (("B" : String) == "A") = false from rfl]

theorem janeRun1 : runOps janeDb0 (janeOps.take 1) = janeDb1 := by
  show runOps janeDb0 [("jane", CartOp.add janeProdA "t1")] = janeDb1
  rw [runOps_cons, janeStep1, runOps_nil]

theorem janeRun2 : runOps janeDb0 (janeOps.take 2) = janeDb2 := by
  show runOps janeDb0 [("jane", CartOp.add janeProdA "t1"),
    ("jane", CartOp.add janeProdA "t2")] = janeDb2
  rw [runOps_cons, janeStep1, runOps_cons, janeStep2, runOps_nil]

theorem janeRun3 : runOps janeDb0 (janeOps.take 3) = janeDb3 := by
  show runOps janeDb0 [("jane", CartOp.add janeProdA "t1"),
    ("jane", CartOp.add janeProdA "t2"), ("jane", CartOp.add janeProdB "t3")] =
    janeDb3
  rw [runOps_cons, janeStep1, runOps_cons, janeStep2, runOps_cons, janeStep3,
    runOps_nil]

theorem janeRun4 : runOps janeDb0 (janeOps.take 4) = janeDb4 := by
  show runOps janeDb0 [("jane", CartOp.add janeProdA "t1"),
    ("jane", CartOp.add janeProdA "t2"), ("jane", CartOp.add janeProdB "t3"),
    ("jane", CartOp.update "A" 1)] = janeDb4
  rw [runOps_cons, janeStep1, runOps_cons, janeStep2, runOps_cons, janeStep3,
    runOps_cons, janeStep4, runOps_nil]

theorem janeRun5 : runOps janeDb0 janeOps = janeDb5 := by
  show runOps janeDb0 [("jane", CartOp.add janeProdA "t1"),
    ("jane", CartOp.add janeProdA "t2"), ("jane", CartOp.add janeProdB "t3"),
    ("jane", CartOp.update "A" 1), ("jane", CartOp.complete "t5")] = janeDb5
  rw [runOps_cons, janeStep1, runOps_cons, janeStep2, runOps_cons, janeStep3,
    runOps_cons, janeStep4, runOps_cons, janeStep5, runOps_nil]

/-- C7 counterexample: after Jane sets product A's quantity to 1, the
code computes total 7.48 (4.99 + 2.49), not the 7.47 the claim states,
and the completed sale likewise carries total_amount 7.48. -/
theorem jane_checkout_scenario_counterexample :
    ((runOps janeDb0 (janeOps.take 4)).sales.map (fun s => s.total_amount) =
      [748/100]) ∧
    ((748 : ℚ)/100 ≠ 747/100) ∧
    ((runOps janeDb0 janeOps).sales.map (fun s => (s.status, s.total_amount)) =
      [("completed", 748/100)]) := by
  rw [janeRun4, janeRun5]
  refine ⟨rfl, ?_, rfl⟩
  norm_num

/-- C7 (amended): the scenario of the spec: Jane adds product A (4.99),
adds it again, adds product B (2.49), sets A's quantity to 1, completes
the sale; the totals observed after the successive steps are 4.99, 9.98
(with A at quantity 2), 12.47, and 7.48 (the sum 4.99 + 2.49; the claim's
7.47 is an arithmetic slip), and the final sale is completed with
total_amount 7.48 while Jane owns zero draft sales. -/
theorem jane_checkout_scenario :
    ((runOps janeDb0 (janeOps.take 1)).sales.map (fun s => s.total_amount) =
      [499/100]) ∧
    ((runOps janeDb0 (janeOps.take 2)).saleItems.map
      (fun i => (i.product_id, i.quantity)) = [("A", 2)]) ∧
    ((runOps janeDb0 (janeOps.take 2)).sales.map (fun s => s.total_amount) =
      [998/100]) ∧
    ((runOps janeDb0 (janeOps.take 3)).sales.map (fun s => s.total_amount) =
      [1247/100]) ∧
    ((runOps janeDb0 (janeOps.take 4)).sales.map (fun s => s.total_amount) =
      [748/100]) ∧
    ((runOps janeDb0 janeOps).sales.map (fun s => (s.status, s.total_amount)) =
      [("completed", 748/100)]) ∧
    draftCount (runOps janeDb0 janeOps) "jane" = 0 := by
  rw [janeRun1, janeRun2, janeRun3, janeRun4, janeRun5]
  refine ⟨rfl, rfl, rfl, rfl, rfl, rfl, ?_⟩
  decide

/-- C8 counterexample: an addItem call whose write transaction fails does
not leave the store equal to the state before the call: the draft sale
inserted by getOrCreateDraftSale outside the transaction persists. -/
theorem failed_transaction_rolls_back_counterexample :
    addItemRun ⟨[], [], [], 0⟩ (some "c") none ⟨"A", 1⟩ "t" false ≠
      ⟨[], [], [], 0⟩ := by
  decide

/-- C8 (amended): a failed atomic unit rolls back every statement inside
it and the error is swallowed: a failed updateQuantity, removeItem or
clearCart leaves the store exactly as before the call; a failed addItem
rolls back to the state reached after getOrCreateDraftSale, which equals
the pre-call state whenever a draft sale was already visible, but keeps a
newly created draft sale row otherwise. -/
theorem failed_transaction_rolls_back (db : DB) (cashier : Option String)
    (live : Option Nat) (p : ProductRow) (pid : String) (q : ℤ)
    (now : String) :
    updateQuantityRun db live pid q false = db ∧
    removeItemRun db live pid false = db ∧
    clearCartRun db live false = db ∧
    (∀ cid, cashier = some cid →
      addItemRun db cashier live p now false =
        (getOrCreateDraftSale db cid live now).2) ∧
    (∀ cid, cashier = some cid →
      (live.isSome ∨ (findDraftSale db cid).isSome) →
      addItemRun db cashier live p now false = db) := by
  refine ⟨?_, ?_, ?_, ?_, ?_⟩
  · cases live <;> rfl
  · cases live <;> rfl
  · cases live <;> rfl
  · intro cid h
    subst h
    rfl
  · intro cid h hvis
    subst h
    show (getOrCreateDraftSale db cid live now).2 = db
    cases live with
    | some sid => rfl
    | none =>
      cases hfd : findDraftSale db cid with
      | some s => simp [getOrCreateDraftSale, hfd]
      | none =>
        rcases hvis with h1 | h1
        · exact absurd h1 (by simp)
        · rw [hfd] at h1
          exact absurd h1 (by simp)

/-- Witness for C8 at concrete stores with aborted transactions. -/
theorem failed_transaction_rolls_back_witness :
    updateQuantityRun ⟨[], [], [], 0⟩ (some 0) "A" 2 false = ⟨[], [], [], 0⟩ ∧
    addItemRun ⟨[⟨0, "c", 0, "draft", "t", none⟩], [], [], 1⟩ (some "c")
      (some 0) ⟨"A", 1⟩ "t2" false =
      ⟨[⟨0, "c", 0, "draft", "t", none⟩], [], [], 1⟩ :=
  ⟨(failed_transaction_rolls_back ⟨[], [], [], 0⟩ none (some 0) ⟨"A", 1⟩
      "A" 2 "t2").1,
   (failed_transaction_rolls_back ⟨[⟨0, "c", 0, "draft", "t", none⟩], [], [], 1⟩
      (some "c") (some 0) ⟨"A", 1⟩ "A" 2 "t2").2.2.2.2 "c" rfl
      (Or.inl rfl)⟩

/-- C9 counterexample: with no matching operator row, the candidate PIN
"abcd" is not a well-formed 4-digit PIN, yet loginWithPin returns true
and installs a demo identity instead of failing. -/
theorem loginWithPin_counterexample :
    (loginWithPin (Except.ok []) "abcd").ok = true ∧
    isWellFormedFourDigitPin "abcd" = false ∧
    matchingCashiers [] "abcd" = [] := by
  decide

/-- C9 (amended): loginWithPin succeeds when a stored active operator row
matches the PIN; when no row matches or the store query throws, it still
succeeds for any PIN whose length is 4 — the fallback checks only the
length, not that the characters are digits — installing a demo cashier
identity; it fails with a user-visible error message exactly when there
is no match and the length differs from 4. -/
theorem loginWithPin_fallback (rows : List CashierRow) (pin : String) :
    (∀ r rest, matchingCashiers rows pin = r :: rest →
      (loginWithPin (Except.ok rows) pin).ok = true ∧
      (loginWithPin (Except.ok rows) pin).cashier =
        some ⟨r.id, r.name.getD "Unknown"⟩ ∧
      (loginWithPin (Except.ok rows) pin).error = none) ∧
    (matchingCashiers rows pin = [] → pin.length = 4 →
      (loginWithPin (Except.ok rows) pin).ok = true ∧
      (loginWithPin (Except.ok rows) pin).cashier =
        some ⟨"demo-" ++ pin, "Cashier " ++ pin⟩ ∧
      (loginWithPin (Except.ok rows) pin).error = none) ∧
    (pin.length = 4 →
      (loginWithPin (Except.error ()) pin).ok = true ∧
      (loginWithPin (Except.error ()) pin).cashier =
        some ⟨"demo-" ++ pin, "Demo Cashier"⟩) ∧
    (matchingCashiers rows pin = [] → pin.length ≠ 4 →
      (loginWithPin (Except.ok rows) pin).ok = false ∧
      (loginWithPin (Except.ok rows) pin).error =
        some "Invalid PIN. Please try again.") ∧
    (pin.length ≠ 4 →
      (loginWithPin (Except.error ()) pin).ok = false ∧
      (loginWithPin (Except.error ()) pin).error =
        some "An error occurred during login. Please try again.") := by
  refine ⟨?_, ?_, ?_, ?_, ?_⟩
  · intro r rest h
    simp [loginWithPin, h]
  · intro h hl
    have hb : (pin.length == 4) = true := by simp [hl]
    simp [loginWithPin, h, hb]
  · intro hl
    have hb : (pin.length == 4) = true := by simp [hl]
    simp [loginWithPin, hb]
  · intro h hl
    have hb : (pin.length == 4) = false := by simp [hl]
    simp [loginWithPin, h, hb]
  · intro hl
    have hb : (pin.length == 4) = false := by simp [hl]
    simp [loginWithPin, hb]

/-- Witness for C9: a stored operator row matching PIN 1234 logs in. -/
theorem loginWithPin_fallback_witness :
    (loginWithPin (Except.ok [⟨"u1", some "Ann", some "1234", some 1⟩])
      "1234").ok = true :=
  ((loginWithPin_fallback [⟨"u1", some "Ann", some "1234", some 1⟩] "1234").1
    ⟨"u1", some "Ann", some "1234", some 1⟩ [] (by decide)).1

theorem filterMap_eq_nil_of_none {α β : Type} (f : α → Option β) (l : List α)
    (h : ∀ a ∈ l, f a = none) : l.filterMap f = [] := by
  induction l with
  | nil => rfl
  | cons a t ih =>
    rw [List.filterMap_cons, h a (List.mem_cons_self a t)]
    exact ih (fun x hx => h x (List.mem_cons_of_mem _ hx))

theorem items_subtotals_known (db : DB) (l : List SaleItemRow) :
    ((l.filterMap (fun i =>
      match findProduct db i.product_id with
      | none => none
      | some p =>
        some (⟨i.id, p.id, i.quantity, i.unit_price, i.subtotal⟩ : CartItem))).map
      (fun ci => ci.subtotal)) =
    ((l.filter (fun i => (findProduct db i.product_id).isSome)).map
      (fun i => i.subtotal)) := by
  induction l with
  | nil => rfl
  | cons a t ih =>
    rw [List.filterMap_cons]
    cases hp : findProduct db a.product_id with
    | none =>
      rw [List.filter_cons_of_neg (by simp [hp])]
      exact ih
    | some p =>
      rw [List.filter_cons_of_pos (by simp [hp]), List.map_cons, List.map_cons, ih]

/-- C10: the items view only contains line items whose referenced product
exists in the catalog, the derived total sums only those items' subtotals,
and for a draft sale all of whose line items reference unknown products
the items view is empty, so completeSale returns null and leaves the
store — including the sale's draft status — unchanged even though
line-item rows exist for the sale. -/
theorem completeSale_ignores_unknown_products (db : DB) (c : String)
    (now : String) :
    (∀ live, ∀ ci ∈ items db live, (findProduct db ci.productId).isSome = true) ∧
    (∀ sid, total db (some sid) =
      (((db.saleItems.filter (fun i => i.sale_id == sid)).filter
        (fun i => (findProduct db i.product_id).isSome)).map
        (fun i => i.subtotal)).sum) ∧
    (∀ sid, (∀ i ∈ db.saleItems, i.sale_id = sid →
        findProduct db i.product_id = none) →
      (∃ i ∈ db.saleItems, i.sale_id = sid) →
      items db (some sid) = [] ∧
      completeSale db (some c) (some sid) now = (none, db)) := by
  refine ⟨?_, ?_, ?_⟩
  · intro live ci hci
    cases live with
    | none => exact absurd hci (by simp [items])
    | some sid =>
      obtain ⟨i, hi, hf⟩ := List.mem_filterMap.1 hci
      cases hp : findProduct db i.product_id with
      | none =>
        rw [hp] at hf
        exact absurd hf (by simp)
      | some p =>
        rw [hp] at hf
        have hci2 : ci = ⟨i.id, p.id, i.quantity, i.unit_price, i.subtotal⟩ := by
          simpa using hf.symm
        have hpmem := List.mem_of_find?_eq_some hp
        have : (findProduct db ci.productId).isSome = true := by
          rw [hci2]
          show (db.products.find? (fun x => x.id == p.id)).isSome = true
          rw [List.find?_isSome]
          exact ⟨p, hpmem, by simp⟩
        exact this
  · intro sid
    show ((items db (some sid)).map (fun ci => ci.subtotal)).sum = _
    rw [show items db (some sid) =
      (db.saleItems.filter (fun i => i.sale_id == sid)).filterMap (fun i =>
        match findProduct db i.product_id with
        | none => none
        | some p =>
          some (⟨i.id, p.id, i.quantity, i.unit_price, i.subtotal⟩ : CartItem))
      from rfl]
    rw [items_subtotals_known]
  · intro sid hall hex
    have hitems : items db (some sid) = [] := by
      show (db.saleItems.filter (fun i => i.sale_id == sid)).filterMap _ = []
      apply filterMap_eq_nil_of_none
      intro i hi
      obtain ⟨hmem, hsid⟩ := List.mem_filter.1 hi
      rw [hall i hmem (by simpa using hsid)]
    exact ⟨hitems, completeSale_empty db c sid now hitems⟩

/-- Witness for C10: a draft sale whose only line item references a
product absent from the catalog cannot be completed. -/
theorem completeSale_ignores_unknown_products_witness :
    completeSale ⟨[⟨0, "c", 2, "draft", "t", none⟩],
      [⟨1, 0, "ghost", 1, 2, 2, "t"⟩], [], 2⟩ (some "c") (some 0) "t2" =
      (none, ⟨[⟨0, "c", 2, "draft", "t", none⟩],
        [⟨1, 0, "ghost", 1, 2, 2, "t"⟩], [], 2⟩) :=
  ((completeSale_ignores_unknown_products ⟨[⟨0, "c", 2, "draft", "t", none⟩],
      [⟨1, 0, "ghost", 1, 2, 2, "t"⟩], [], 2⟩ "c" "t2").2.2 0
    (by
      intro i hi _
      rfl)
    ⟨⟨1, 0, "ghost", 1, 2, 2, "t"⟩, by simp, rfl⟩).2

end POS
